import Mathlib

/-!
Verification of the ingestion-dedup-load pipeline of `src/main.py`
(search recent mentions, transform to canonical rows, dedup against the
most recent stored ids, append to the destination table) together with
the token loader `cargar_token`.

Shallow embedding conventions:
* UTC instants are `Int` seconds since the Unix epoch.
* A pandas `Timestamp` is either timezone-aware (a tag plus the instant)
  or naive (wall-clock seconds).
* Fallible Python calls become explicit `Except`/`Option` inputs: each
  external interaction (token file, search API, BigQuery read, BigQuery
  load job) is a parameter describing what that interaction would yield.
-/

namespace XTwitter

/-! ## Timestamps (pandas model)

`buscar_tweets` (main.py line 166) runs
`pd.Timestamp(t.created_at).tz_convert("America/Guayaquil").tz_localize(None)`.
-/

/-- A pandas timestamp: either aware of a timezone (instant stored as UTC
epoch seconds) or naive (wall-clock seconds with no timezone tag). -/
inductive PTimestamp where
  | aware (tz : String) (epoch : Int)
  | naive (wall : Int)
deriving DecidableEq, Repr

/-- UTC offset (in seconds) of the IANA zone America/Guayaquil at a given
UTC instant, per the tz database: LMT -5:19:20 until 1890, QMT -5:14 until
1931, -05 until 1992-11-28 05:00Z, -04 (DST) until 1993-02-05 04:00Z,
-05 since. Transition epochs checked against zdump. -/
def guayaquilOffset (e : Int) : Int :=
  if e < -2524502440 then -19160
  else if e < -1230749160 then -18840
  else if e < 722926800 then -18000
  else if e < 728884800 then -14400
  else -18000

/-- Offset lookup for the timezone tags used by the program. -/
def tzOffsetAt (tz : String) (e : Int) : Int :=
  if tz = "America/Guayaquil" then guayaquilOffset e else 0

/-- `pd.Timestamp(t.created_at)`: tweet creation instants arrive from the
API timezone-aware in UTC. -/
def pd_Timestamp (utcEpoch : Int) : PTimestamp :=
  PTimestamp.aware "UTC" utcEpoch

/-- `Timestamp.tz_convert(tz)`: keeps the instant, changes the tag.
(pandas raises on a naive input; that branch is unreachable here because
`pd_Timestamp` always yields an aware value.) -/
def tz_convert (tz : String) : PTimestamp → PTimestamp
  | .aware _ e => .aware tz e
  | .naive w => .naive w

/-- `Timestamp.tz_localize(None)`: drops the timezone tag, keeping the
local wall-clock reading at the instant. -/
def tz_localize_none : PTimestamp → PTimestamp
  | .aware tz e => .naive (e + tzOffsetAt tz e)
  | .naive w => .naive w

/-! ## Raw API data (tweepy model) -/

/-- `t.public_metrics`: a dict; each counter may be absent
(`dict.get` with a default is used at main.py lines 171-176). -/
structure PublicMetrics where
  retweet_count : Option Nat
  reply_count : Option Nat
  like_count : Option Nat
  quote_count : Option Nat
  bookmark_count : Option Nat
  impression_count : Option Nat
deriving DecidableEq, Repr

/-- A raw tweet as returned in `tweets.data`. -/
structure Tweet where
  id : Nat
  text : String
  author_id : Nat
  created_at : Int
  public_metrics : PublicMetrics
deriving DecidableEq, Repr

/-- An expanded user object from `tweets.includes["users"]`. -/
structure TweetUser where
  id : Nat
  username : String
deriving DecidableEq, Repr

/-- The value stored in the `Autor` column (main.py line 170): the
resolved username when the author id is in the users dict, otherwise the
raw numeric author id itself. -/
inductive Autor where
  | username (u : String)
  | rawId (id : Nat)
deriving DecidableEq, Repr

/-- One row of the DataFrame built at main.py lines 167-178. -/
structure CanonicalRecord where
  Id : String
  Text : String
  Autor : Autor
  Retweet : Nat
  Reply : Nat
  Likes : Nat
  Quote : Nat
  Bookmark : Nat
  Impression : Option Nat
  Created : PTimestamp
deriving DecidableEq, Repr

/-- Lookup in the dict `users = {u["id"]: u for u in ...}` (main.py
line 162). A Python dict comprehension keeps the last binding for a
repeated key, hence the lookup over the reversed list. -/
def dictFind (users : List TweetUser) (aid : Nat) : Option TweetUser :=
  users.reverse.find? (fun u => u.id == aid)

/-- The response of one `search_recent_tweets` call: `data` plus the
expanded users of `includes`. -/
structure SearchResponse where
  data : List Tweet
  users : List TweetUser
deriving DecidableEq, Repr

/-- The upstream search API: the successive result pages it would serve
for the query window, plus the expanded user objects. -/
structure TwitterAPI where
  pages : List (List Tweet)
  users : List TweetUser
deriving DecidableEq, Repr

/-- One call to `client.search_recent_tweets(..., max_results=n)`
(main.py lines 148-156): it yields the first page only, capped at the
requested page size; the code never requests a `next_token`. -/
def search_recent_tweets (api : TwitterAPI) (max_results : Nat) : SearchResponse :=
  { data := (api.pages.headD []).take max_results, users := api.users }

/-- Error kinds of main.py lines 183-191; all are logged and turned into
the `None` sentinel. -/
inductive ApiError where
  | tooManyRequests
  | tweepyError
  | unexpected
deriving DecidableEq, Repr

/-- The per-tweet transformation of main.py lines 165-178. -/
def transformTweet (users : List TweetUser) (t : Tweet) : CanonicalRecord :=
  { Id := toString t.id
    Text := t.text
    Autor := match dictFind users t.author_id with
      | some u => .username u.username
      | none => .rawId t.author_id
    Retweet := t.public_metrics.retweet_count.getD 0
    Reply := t.public_metrics.reply_count.getD 0
    Likes := t.public_metrics.like_count.getD 0
    Quote := t.public_metrics.quote_count.getD 0
    Bookmark := t.public_metrics.bookmark_count.getD 0
    Impression := t.public_metrics.impression_count
    Created := tz_localize_none (tz_convert "America/Guayaquil" (pd_Timestamp t.created_at)) }

/-- `buscar_tweets` (main.py lines 141-191). The argument describes what
the single `search_recent_tweets` call would do: raise (`.error`) or
return a response (`.ok`). Any raise is caught and logged and the `None`
sentinel is returned; an empty `data` yields an empty DataFrame; otherwise
each tweet of the (single, first) page is transformed in order. -/
def buscar_tweets (apiRes : Except ApiError TwitterAPI) : Option (List CanonicalRecord) :=
  match apiRes with
  | .error _ => none
  | .ok api =>
      let tweets := search_recent_tweets api 100
      if tweets.data.isEmpty then some []
      else some (tweets.data.map (transformTweet tweets.users))

/-- Pagination loop as the spec describes it (spec.md section 4.2):
accumulate successive pages until none remain or the accumulated-result
cap is reached. Written from the spec's words for comparison with
`buscar_tweets`; the source has no such loop. -/
def spec_pagedSearch : List (List Tweet) → Nat → List Tweet
  | [], _ => []
  | p :: rest, cap =>
      if cap ≤ p.length then p.take cap
      else p ++ spec_pagedSearch rest (cap - p.length)

/-! ## Token loader (`cargar_token`, main.py lines 110-136) -/

/-- State of a token file as the loader can observe it: absent
(`os.path.exists` false, line 123), present but raising on open or read
(caught at line 134), or present with its list of lines. -/
inductive FileState where
  | missing
  | unreadable
  | content (lines : List String)
deriving DecidableEq, Repr

/-- Python truthiness of `os.getenv(name)`: unset (`None`) and the empty
string are both falsy. -/
def truthy : Option String → Bool
  | none => false
  | some s => !(s == "")

/-- `line.strip().split("=", 1)[1]`: everything after the first `=` of
the stripped line (maxsplit 1 keeps later `=` characters in the value). -/
def lineaValor (l : String) : String :=
  String.intercalate "=" (l.trim.splitOn "=").tail

/-- The file-scanning loop of main.py lines 127-131: return the value of
the first line whose stripped form starts with `BEARER_TOKEN=` and whose
value is non-empty; keep scanning past matching lines with empty values. -/
def tokenFromLines : List String → Option String
  | [] => none
  | l :: ls =>
      if l.trim.startsWith "BEARER_TOKEN=" then
        if lineaValor l == "" then tokenFromLines ls else some (lineaValor l)
      else tokenFromLines ls

/-- `cargar_token(path, env_override_name)` (main.py lines 110-136),
returning the token (or `none`) together with the messages it logs. The
first argument is what `os.getenv(env_override_name)` yields (`none` also
covers `env_override_name` itself being absent); the second is the state
of the file at `path`. -/
def cargar_token (env : Option String) (file : FileState) : Option String × List String :=
  if truthy env then (env, [])
  else
    match file with
    | .missing => (none, ["Archivo token no existe"])
    | .unreadable => (none, ["Error al leer el token"])
    | .content ls =>
        match tokenFromLines ls with
        | some tok => (some tok, [])
        | none => (none, ["BEARER_TOKEN no encontrado"])

/-- Characterization of the scanning loop written from the claim's words:
the value after the first `=` of the first file line whose stripped form
starts with `BEARER_TOKEN=` and has a non-empty value. -/
def spec_tokenLine (ls : List String) : Option String :=
  (ls.find? (fun l => l.trim.startsWith "BEARER_TOKEN=" && !(lineaValor l == ""))).map lineaValor

/-! ## Existing-ID resolver (`obtener_ids_existentes`, main.py lines 196-210) -/

/-- `obtener_ids_existentes(table_id)`: the argument is what the bounded
BigQuery read (`SELECT Id ... ORDER BY Created DESC LIMIT 500`) would
yield — the id column on success, or a raise. Returns the id set (modelled
as a deduplicated list) plus a flag recording that the failure was logged
(line 209); a failed read yields the empty set, never a raise. -/
def obtener_ids_existentes (queryRes : Except Unit (List String)) : List String × Bool :=
  match queryRes with
  | .ok rows => (rows.dedup, false)
  | .error _ => ([], true)

/-! ## Main loop (`main`, main.py lines 215-273) -/

/-- `df_nuevo = df[~df["Id"].isin(ids_existentes)]` (main.py line 245):
keep, in order, the rows whose Id is not among the existing ids. -/
def df_nuevo (df : List CanonicalRecord) (ids : List String) : List CanonicalRecord :=
  df.filter (fun r => !(ids.contains r.Id))

/-- Observable events of one run, in order: log lines that drive the
claims, plus the two storage interactions. -/
inductive Event where
  | warnTokenLoad
  | warnSearchFailed
  | infoNoTweets
  | storageRead
  | errReadFailed
  | infoAllExist
  | storageWrite (records : List CanonicalRecord)
  | errWriteFailed
  | successReport (n : Nat)
  | errNoTokenWorked
deriving DecidableEq, Repr

/-- How a run ends (all of these are normal returns of `main`). -/
inductive Outcome where
  | noTweets
  | nothingNew
  | loaded (n : Nat)
  | allTokensFailed
deriving DecidableEq, Repr

/-- The environment of one iteration of the credential loop (main.py
lines 220-264): what `os.getenv`/the token file, the search API, the
BigQuery read and the BigQuery load job would each do if consulted. -/
structure Attempt where
  env : Option String
  file : FileState
  api : Except ApiError TwitterAPI
  read : Except Unit (List String)
  writeOk : Bool
deriving Repr

/-- Result of one loop iteration: either `main` returns with an outcome,
or the loop continues to the next token (both `continue` statements and
the caught per-token exception of lines 261-264). -/
inductive StepRes where
  | done (o : Outcome) (evs : List Event)
  | next (evs : List Event)
deriving DecidableEq, Repr

/-- The events of the existing-id read (main.py line 244): the read is
always attempted, and its failure is additionally logged (line 209). -/
def readEvents (a : Attempt) : List Event :=
  Event.storageRead ::
    (if (obtener_ids_existentes a.read).2 then [Event.errReadFailed] else [])

/-- One iteration of the credential loop (main.py lines 220-264):
load the token (skip on failure, line 223); search (skip on the `None`
sentinel, line 232); return on an empty batch (line 237); read existing
ids (line 244) and filter (line 245); return on nothing new (line 247);
attempt the load job — on success report the count and return (lines
253-259), on a raise the handler at line 261 logs and continues with the
next token. -/
def attemptStep (a : Attempt) : StepRes :=
  match (cargar_token a.env a.file).1 with
  | none => .next [.warnTokenLoad]
  | some _ =>
      match buscar_tweets a.api with
      | none => .next [.warnSearchFailed]
      | some df =>
          if df.isEmpty then .done .noTweets [.infoNoTweets]
          else
            let dfN := df_nuevo df (obtener_ids_existentes a.read).1
            if dfN.isEmpty then .done .nothingNew (readEvents a ++ [.infoAllExist])
            else if a.writeOk then
              .done (.loaded dfN.length)
                (readEvents a ++ [.storageWrite dfN, .successReport dfN.length])
            else .next (readEvents a ++ [.storageWrite dfN, .errWriteFailed])

/-- The credential loop of `main` (main.py lines 220-268): iterate the
token sources in order; when the list is exhausted, log the final error
(line 267) and return normally. -/
def mainLoop : List Attempt → Outcome × List Event
  | [] => (.allTokensFailed, [.errNoTokenWorked])
  | a :: rest =>
      match attemptStep a with
      | .done o evs => (o, evs)
      | .next evs => ((mainLoop rest).1, evs ++ (mainLoop rest).2)

/-- `main` (main.py lines 215-273). The outer handler (lines 270-273)
re-raises only exceptions that escape the loop body; every operation
inside the loop is either guarded by the per-token handler of lines
261-264 (which continues with the next token) or catches internally
(`buscar_tweets`, `obtener_ids_existentes`, `cargar_token`), so for the
modelled interactions `main` always returns normally, with process exit
status 0. `Except` keeps the outer raise representable. -/
def main (attempts : List Attempt) : Except String (Outcome × List Event) :=
  Except.ok (mainLoop attempts)

/-- Events that touch the destination store. -/
def isStorageEvent : Event → Bool
  | .storageRead => true
  | .storageWrite _ => true
  | _ => false

/-- Events that attempt a storage write. -/
def isWriteEvent : Event → Bool
  | .storageWrite _ => true
  | _ => false

/-! ## Shared lemmas -/

/-- Filtering against the empty id set keeps every row. -/
lemma df_nuevo_nil (df : List CanonicalRecord) : df_nuevo df [] = df := by
  simp [df_nuevo]

/-- The scanning loop of `cargar_token` computes exactly "the value of
the first line whose stripped form starts with `BEARER_TOKEN=` and has a
non-empty value". -/
lemma tokenFromLines_eq_spec (ls : List String) : tokenFromLines ls = spec_tokenLine ls := by
  induction ls with
  | nil => rfl
  | cons l ls ih =>
      by_cases h1 : l.trim.startsWith "BEARER_TOKEN="
      · by_cases h2 : lineaValor l = ""
        · simp [tokenFromLines, spec_tokenLine, List.find?, h1, h2, ih, spec_tokenLine]
        · have h2f : (lineaValor l == "") = false := by simpa using h2
          simp [tokenFromLines, spec_tokenLine, List.find?, h1, h2f]
      · simp [tokenFromLines, spec_tokenLine, List.find?, h1, ih, spec_tokenLine]

/-! ## Claims -/

/-- Claim C6: for every CanonicalRecord sequence C and identifier set S,
the filter step `df_nuevo` returns exactly the elements of C whose Id is
not a member of S, preserving their relative order (the result is a
sublist of C), and filtering against the empty set returns C unchanged. -/
theorem filtro_exacto_y_ordenado :
    (∀ (C : List CanonicalRecord) (S : List String),
      (df_nuevo C S).Sublist C ∧
      (∀ r, r ∈ df_nuevo C S ↔ (r ∈ C ∧ r.Id ∉ S))) ∧
    (∀ C : List CanonicalRecord, df_nuevo C [] = C) := by
  refine ⟨fun C S => ⟨List.filter_sublist C, fun r => ?_⟩, df_nuevo_nil⟩
  simp [df_nuevo, List.mem_filter]

/-- Claim C10: the token loader is total and Option-valued. If the
environment value is set and non-empty it is returned verbatim, whatever
the file holds; an empty environment value is the same as an unset one;
otherwise the result is the value after the first `=` of the first file
line whose stripped form starts with `BEARER_TOKEN=` and has a non-empty
value; and `none` comes back, with a logged message, when the file is
missing, unreadable, or contains no such line. -/
theorem cargar_token_caracterizacion :
    (∀ (v : String) (fs : FileState), v ≠ "" → cargar_token (some v) fs = (some v, [])) ∧
    (∀ fs : FileState, cargar_token (some "") fs = cargar_token none fs) ∧
    (∀ ls : List String, (cargar_token none (.content ls)).1 = spec_tokenLine ls) ∧
    ((cargar_token none .missing).1 = none ∧ (cargar_token none .missing).2 ≠ []) ∧
    ((cargar_token none .unreadable).1 = none ∧ (cargar_token none .unreadable).2 ≠ []) ∧
    (∀ ls : List String, spec_tokenLine ls = none →
      (cargar_token none (.content ls)).1 = none ∧ (cargar_token none (.content ls)).2 ≠ []) := by
  refine ⟨fun v fs hv => ?_, fun fs => rfl, fun ls => ?_, ⟨rfl, by decide⟩, ⟨rfl, by decide⟩,
    fun ls hls => ?_⟩
  · simp [cargar_token, truthy, hv]
  · simp only [cargar_token, truthy]
    rw [← tokenFromLines_eq_spec]
    cases tokenFromLines ls <;> rfl
  · rw [← tokenFromLines_eq_spec] at hls
    simp [cargar_token, truthy, hls]

/-- Witness for C10 at concrete inputs: a non-empty environment value is
returned verbatim even over a missing file. -/
theorem cargar_token_caracterizacion_witness :
    cargar_token (some "tok-abc") FileState.missing = (some "tok-abc", []) :=
  cargar_token_caracterizacion.1 "tok-abc" FileState.missing (by decide)

/-- A concrete tweet used by witnesses and counterexamples: created in
October 2025, author id 5 (absent from an empty users dict). -/
def tCx : Tweet :=
  { id := 1, text := "hola", author_id := 5, created_at := 1760000000
    public_metrics :=
      { retweet_count := none, reply_count := none, like_count := none
        quote_count := none, bookmark_count := none, impression_count := none } }

/-- Claim C7: for every raw post created at or after the 1993-02-05
transition of America/Guayaquil (every real tweet: the search window is
the last 24 hours), the `Created` field is the source UTC instant shifted
by exactly the fixed 5-hour offset (UTC-5), and it is a naive timestamp
(the `PTimestamp.naive` constructor carries no timezone tag). -/
theorem created_desfase_fijo (users : List TweetUser) (t : Tweet)
    (h : (728884800 : Int) ≤ t.created_at) :
    (transformTweet users t).Created = PTimestamp.naive (t.created_at - 5 * 3600) := by
  have h1 : ¬ (t.created_at < -2524502440) := by omega
  have h2 : ¬ (t.created_at < -1230749160) := by omega
  have h3 : ¬ (t.created_at < 722926800) := by omega
  have h4 : ¬ (t.created_at < 728884800) := by omega
  simp only [transformTweet, pd_Timestamp, tz_convert, tz_localize_none, tzOffsetAt,
    guayaquilOffset, if_pos rfl, if_neg h1, if_neg h2, if_neg h3, if_neg h4]
  congr 1

/-- Witness for C7 at the concrete tweet `tCx`. -/
theorem created_desfase_fijo_witness :
    (728884800 : Int) ≤ (1760000000 : Int) ∧
    (transformTweet [] tCx).Created = PTimestamp.naive (1760000000 - 5 * 3600) :=
  ⟨by decide, created_desfase_fijo [] tCx (by decide)⟩

/-- Counterexample to claim C1 as stated: `tCx`'s author id 5 has no
entry in the (empty) users dict, yet the Autor field is not the
"unknown" sentinel string — it is the raw numeric author id. -/
theorem autor_centinela_refutado :
    (transformTweet [] tCx).Autor = Autor.rawId 5 ∧
    (transformTweet [] tCx).Autor ≠ Autor.username "unknown" := by
  decide

/-- Claim C1 as amended: when a post's author reference is absent from
the bulk-resolved author map, the record's Autor field is the raw author
reference itself (not an "unknown" string), and no error is raised: the
transformation is total and `buscar_tweets` returns a batch (never the
error sentinel) for every non-raising API response. -/
theorem autor_ausente_referencia_cruda :
    (∀ (users : List TweetUser) (t : Tweet),
      dictFind users t.author_id = none →
      (transformTweet users t).Autor = Autor.rawId t.author_id) ∧
    (∀ apiv : TwitterAPI, (buscar_tweets (Except.ok apiv)).isSome = true) := by
  constructor
  · intro users t h
    simp [transformTweet, h]
  · intro apiv
    simp only [buscar_tweets]
    split <;> rfl

/-- Witness for C1 (amended) at the concrete tweet `tCx`. -/
theorem autor_ausente_referencia_cruda_witness :
    dictFind [] tCx.author_id = none ∧
    (transformTweet [] tCx).Autor = Autor.rawId tCx.author_id :=
  ⟨by decide, autor_ausente_referencia_cruda.1 [] tCx (by decide)⟩

/-- An API response whose single page contains the same tweet twice. -/
def apiDup : TwitterAPI := { pages := [[tCx, tCx]], users := [] }

/-- Counterexample to claim C4 as stated: a batch with a duplicated post
identifier is transformed into two records sharing the Id "1" — the
transformation performs no deduplication. -/
theorem dedup_refutado :
    ((buscar_tweets (Except.ok apiDup)).getD []).map CanonicalRecord.Id = ["1", "1"] ∧
    ¬ (((buscar_tweets (Except.ok apiDup)).getD []).map CanonicalRecord.Id).Nodup := by
  decide

/-- Claim C4 as amended: the transformed output carries one record per
raw post of the (single) requested page, in input order, with Ids the
stringified post ids in that same order — so upstream duplicates are kept
as duplicates, not removed. -/
theorem ids_transformados_en_orden (apiv : TwitterAPI) :
    ((buscar_tweets (Except.ok apiv)).getD []).map CanonicalRecord.Id
      = ((apiv.pages.headD []).take 100).map (fun t => toString t.id) := by
  have aux : ∀ (l : List Tweet) (us : List TweetUser),
      ((if l.isEmpty then some ([] : List CanonicalRecord)
        else some (l.map (transformTweet us))).getD []).map CanonicalRecord.Id
        = l.map (fun t => toString t.id) := by
    intro l us
    cases l with
    | nil => rfl
    | cons t ts =>
        show ((t :: ts).map (transformTweet us)).map CanonicalRecord.Id = _
        rw [List.map_map]
        apply List.map_congr_left
        intro x _
        rfl
  exact aux ((apiv.pages.headD []).take 100) apiv.users

/-- The two-page API scenario: each page holds one tweet. -/
def apiDosPaginas : TwitterAPI :=
  { pages := [[tCx], [{ tCx with id := 2 }]], users := [] }

/-- Counterexample to claim C5 as stated: with two available pages (one
post each) and the spec's 200-post cap not reached, the paging loop of
the spec would accumulate both posts, but `buscar_tweets` returns only
the first page's single post — it never pages. -/
theorem paginacion_refutada :
    buscar_tweets (Except.ok apiDosPaginas)
      ≠ some ((spec_pagedSearch apiDosPaginas.pages 200).map
          (transformTweet apiDosPaginas.users)) := by
  decide

/-- Claim C5 as amended: the search client issues a single
`search_recent_tweets` request (page size 100) and returns only the first
page of results: pages after the first never influence the output, and at
most 100 posts come back — there is no accumulation loop and no 200-post
cap. -/
theorem busqueda_una_sola_pagina (apiv : TwitterAPI) :
    buscar_tweets (Except.ok apiv)
        = buscar_tweets (Except.ok { pages := [apiv.pages.headD []], users := apiv.users }) ∧
    ((buscar_tweets (Except.ok apiv)).getD []).length ≤ 100 := by
  refine ⟨rfl, ?_⟩
  simp only [buscar_tweets, search_recent_tweets]
  split
  · simp
  · simp

/-! ## Main-loop lemmas -/

/-- An attempt that contributes no usable batch: its token fails to load,
or its search call ends in the `None` sentinel (rate limit, API error, or
unexpected exception). -/
def unusable (b : Attempt) : Prop :=
  (cargar_token b.env b.file).1 = none ∨ buscar_tweets b.api = none

lemma attemptStep_token_none (a : Attempt)
    (h : (cargar_token a.env a.file).1 = none) :
    attemptStep a = .next [.warnTokenLoad] := by
  simp [attemptStep, h]

lemma attemptStep_unusable (a : Attempt) (h : unusable a) :
    attemptStep a = .next [.warnTokenLoad] ∨ attemptStep a = .next [.warnSearchFailed] := by
  rcases hc : (cargar_token a.env a.file).1 with _ | v
  · exact .inl (attemptStep_token_none a hc)
  · rcases h with h1 | h1
    · rw [hc] at h1; cases h1
    · right
      simp [attemptStep, hc, h1]

lemma attemptStep_noTweets (a : Attempt) (v : String)
    (hv : (cargar_token a.env a.file).1 = some v)
    (hb : buscar_tweets a.api = some []) :
    attemptStep a = .done .noTweets [.infoNoTweets] := by
  simp [attemptStep, hv, hb]

lemma attemptStep_nothingNew (a : Attempt) (v : String) (df : List CanonicalRecord)
    (hv : (cargar_token a.env a.file).1 = some v)
    (hb : buscar_tweets a.api = some df) (hne : df ≠ [])
    (hfil : df_nuevo df (obtener_ids_existentes a.read).1 = []) :
    attemptStep a = .done .nothingNew (readEvents a ++ [.infoAllExist]) := by
  have hne' : df.isEmpty = false := by simpa [List.isEmpty_iff] using hne
  simp [attemptStep, hv, hb, hne', hfil]

lemma attemptStep_escribe (a : Attempt) (v : String) (df : List CanonicalRecord)
    (hv : (cargar_token a.env a.file).1 = some v)
    (hb : buscar_tweets a.api = some df) (hne : df ≠ [])
    (hfil : df_nuevo df (obtener_ids_existentes a.read).1 ≠ []) :
    (a.writeOk = true →
      attemptStep a = .done (.loaded (df_nuevo df (obtener_ids_existentes a.read).1).length)
        (readEvents a ++ [.storageWrite (df_nuevo df (obtener_ids_existentes a.read).1),
          .successReport (df_nuevo df (obtener_ids_existentes a.read).1).length])) ∧
    (a.writeOk = false →
      attemptStep a = .next
        (readEvents a ++ [.storageWrite (df_nuevo df (obtener_ids_existentes a.read).1),
          .errWriteFailed])) := by
  have hne' : df.isEmpty = false := by simpa [List.isEmpty_iff] using hne
  have hfil' : (df_nuevo df (obtener_ids_existentes a.read).1).isEmpty = false := by
    simpa [List.isEmpty_iff] using hfil
  constructor <;> intro hw <;> simp [attemptStep, hv, hb, hne', hfil', hw]

/-- Skipping a block of unusable attempts only prepends warning events and
leaves outcome and remaining events unchanged. -/
lemma mainLoop_append_skip (pre l : List Attempt) (h : ∀ b ∈ pre, unusable b) :
    ∃ ws : List Event,
      mainLoop (pre ++ l) = ((mainLoop l).1, ws ++ (mainLoop l).2) ∧
      ∀ e ∈ ws, e = Event.warnTokenLoad ∨ e = Event.warnSearchFailed := by
  induction pre with
  | nil => exact ⟨[], by simp, by simp⟩
  | cons a pre ih =>
      obtain ⟨ws, hws, hmem⟩ := ih (fun b hb => h b (List.mem_cons_of_mem a hb))
      rcases attemptStep_unusable a (h a (List.mem_cons_self a pre)) with h1 | h1
      · refine ⟨.warnTokenLoad :: ws, ?_, ?_⟩
        · simp [mainLoop, h1, hws]
        · intro e he
          rcases List.mem_cons.mp he with rfl | hw
          · exact .inl rfl
          · exact hmem e hw
      · refine ⟨.warnSearchFailed :: ws, ?_, ?_⟩
        · simp [mainLoop, h1, hws]
        · intro e he
          rcases List.mem_cons.mp he with rfl | hw
          · exact .inr rfl
          · exact hmem e hw

/-! ## Main-loop claims -/

/-- Claim C2 as amended: when every credential source is exhausted (no
source yields a usable token, or every attempt ends without a usable
batch), the run logs the final error and returns normally — `main`
completes with `Except.ok` (process exit status 0), it does not raise —
and no storage read or storage write is attempted. -/
theorem credenciales_agotadas_retorno_normal (attempts : List Attempt)
    (h : ∀ a ∈ attempts, unusable a) :
    main attempts = Except.ok (mainLoop attempts) ∧
    (mainLoop attempts).1 = Outcome.allTokensFailed ∧
    Event.errNoTokenWorked ∈ (mainLoop attempts).2 ∧
    ∀ e ∈ (mainLoop attempts).2, isStorageEvent e = false := by
  obtain ⟨ws, hws, hmem⟩ := mainLoop_append_skip attempts [] h
  rw [List.append_nil] at hws
  refine ⟨rfl, ?_, ?_, ?_⟩
  · rw [hws]
    rfl
  · rw [hws]
    simp [mainLoop]
  · rw [hws]
    intro e he
    rcases List.mem_append.mp he with hw | he2
    · rcases hmem e hw with rfl | rfl <;> rfl
    · have : e = Event.errNoTokenWorked := by simpa [mainLoop] using he2
      subst this
      rfl

/-- An attempt whose token cannot be loaded from anywhere. -/
def attemptSinToken : Attempt :=
  { env := none, file := .missing, api := .error .unexpected
    read := .ok [], writeOk := true }

/-- Witness for C2 (amended) on a concrete two-source run with no
loadable token. -/
theorem credenciales_agotadas_retorno_normal_witness :
    (∀ a ∈ [attemptSinToken, attemptSinToken], unusable a) ∧
    (mainLoop [attemptSinToken, attemptSinToken]).1 = Outcome.allTokensFailed :=
  ⟨by intro a ha; exact .inl (by fin_cases ha <;> rfl),
   (credenciales_agotadas_retorno_normal [attemptSinToken, attemptSinToken]
      (by intro a ha; exact .inl (by fin_cases ha <;> rfl))).2.1⟩

/-- Counterexample to claim C2 as stated: with both credential sources
exhausted, `main` completes normally (`Except.ok`, exit status 0) — the
fatal condition is only logged, no error is raised to the caller. -/
theorem credenciales_agotadas_sin_error :
    (main [attemptSinToken, attemptSinToken]).isOk = true ∧
    (mainLoop [attemptSinToken, attemptSinToken]).1 = Outcome.allTokensFailed ∧
    Event.errNoTokenWorked ∈ (mainLoop [attemptSinToken, attemptSinToken]).2 := by
  decide

lemma readEvents_no_write (a : Attempt) : ∀ e ∈ readEvents a, isWriteEvent e = false := by
  intro e he
  simp only [readEvents] at he
  rcases List.mem_cons.mp he with rfl | he2
  · rfl
  · split at he2
    · rw [List.mem_singleton.mp he2]
      rfl
    · exact absurd he2 (List.not_mem_nil e)

lemma attemptStep_sin_exito (a : Attempt) (hw : a.writeOk = false) :
    (∀ o evs, attemptStep a = .done o evs →
      (∀ n, o ≠ Outcome.loaded n) ∧ (∀ n, Event.successReport n ∉ evs)) ∧
    (∀ evs, attemptStep a = .next evs → ∀ n, Event.successReport n ∉ evs) := by
  rcases hc : (cargar_token a.env a.file).1 with _ | v
  · rw [attemptStep_token_none a hc]
    constructor
    · intro o evs h
      cases h
    · intro evs h n
      cases h
      simp
  · rcases hb : buscar_tweets a.api with _ | df
    · have hstep : attemptStep a = .next [.warnSearchFailed] := by
        simp [attemptStep, hc, hb]
      rw [hstep]
      constructor
      · intro o evs h
        cases h
      · intro evs h n
        cases h
        simp
    · by_cases hne : df = []
      · subst hne
        rw [attemptStep_noTweets a v hc hb]
        constructor
        · intro o evs h
          cases h
          exact ⟨fun n => by simp, fun n => by simp⟩
        · intro evs h
          cases h
      · by_cases hfil : df_nuevo df (obtener_ids_existentes a.read).1 = []
        · rw [attemptStep_nothingNew a v df hc hb hne hfil]
          constructor
          · intro o evs h
            cases h
            refine ⟨fun n => by simp, fun n => ?_⟩
            simp only [readEvents, List.mem_append, List.mem_cons]
            split <;> simp
          · intro evs h
            cases h
        · rw [(attemptStep_escribe a v df hc hb hne hfil).2 hw]
          constructor
          · intro o evs h
            cases h
          · intro evs h n
            cases h
            simp only [readEvents, List.mem_append, List.mem_cons]
            split <;> simp

/-- Claim C3 as amended: a storage write failure is caught by the
per-token handler and the run falls back to the next credential source
instead of terminating; success and a loaded-record count are reported
only after some bulk write is acknowledged as complete — in any run in
which no attempted write is acknowledged, the run never reports success
and never reports a loaded-record count. -/
theorem exito_solo_tras_escritura_reconocida (attempts : List Attempt)
    (h : ∀ a ∈ attempts, a.writeOk = false) :
    (∀ n, (mainLoop attempts).1 ≠ Outcome.loaded n) ∧
    (∀ n, Event.successReport n ∉ (mainLoop attempts).2) := by
  induction attempts with
  | nil => exact ⟨fun n => by simp [mainLoop], fun n => by simp [mainLoop]⟩
  | cons a rest ih =>
      have ha := h a (List.mem_cons_self a rest)
      have ih' := ih (fun b hb => h b (List.mem_cons_of_mem a hb))
      have hstep := attemptStep_sin_exito a ha
      cases hs : attemptStep a with
      | done o evs =>
          obtain ⟨h1, h2⟩ := hstep.1 o evs hs
          constructor <;> intro n
          · simpa [mainLoop, hs] using h1 n
          · simpa [mainLoop, hs] using h2 n
      | next evs =>
          have h2 := hstep.2 evs hs
          constructor <;> intro n
          · simpa [mainLoop, hs] using ih'.1 n
          · simp only [mainLoop, hs, List.mem_append]
            rw [not_or]
            exact ⟨h2 n, ih'.2 n⟩

/-- A one-tweet API response and its canonical record. -/
def apiUno : TwitterAPI := { pages := [[tCx]], users := [] }

/-- The record `buscar_tweets` produces from `apiUno`. -/
def recUno : CanonicalRecord := transformTweet [] tCx

/-- A working token whose batch is written but whose load job raises. -/
def attemptFallaEscritura : Attempt :=
  { env := some "tokA", file := .missing, api := .ok apiUno
    read := .ok [], writeOk := false }

/-- A working token whose load job completes. -/
def attemptEscrituraOk : Attempt :=
  { env := some "tokB", file := .missing, api := .ok apiUno
    read := .ok [], writeOk := true }

/-- Witness for C3 (amended): a run whose only write attempt fails never
reports a loaded count. -/
theorem exito_solo_tras_escritura_reconocida_witness :
    (∀ a ∈ [attemptFallaEscritura], a.writeOk = false) ∧
    (mainLoop [attemptFallaEscritura]).1 ≠ Outcome.loaded 1 :=
  ⟨by decide,
   (exito_solo_tras_escritura_reconocida [attemptFallaEscritura] (by decide)).1 1⟩

/-- Counterexample to claim C3 as stated: in a two-token run whose first
bulk write does not complete, the run does not stop — it retries with the
second token, and ends up reporting success and a loaded-record count. -/
theorem escritura_fallida_pero_exito :
    Event.errWriteFailed ∈ (mainLoop [attemptFallaEscritura, attemptEscrituraOk]).2 ∧
    Event.successReport 1 ∈ (mainLoop [attemptFallaEscritura, attemptEscrituraOk]).2 ∧
    (mainLoop [attemptFallaEscritura, attemptEscrituraOk]).1 = Outcome.loaded 1 := by
  decide

/-- Claim C9: a run never writes when there is nothing to load. First
part: if the (first usable) search yields an empty batch, the run reports
"no tweets" and performs no storage read and no storage write. Second
part: if the batch is non-empty but filtering leaves nothing, the run
reports "nothing new" (a normal, non-error outcome) and performs no
storage write. -/
theorem nada_nuevo_sin_escritura :
    (∀ (pre : List Attempt) (a : Attempt) (rest : List Attempt) (v : String),
      (∀ b ∈ pre, unusable b) →
      (cargar_token a.env a.file).1 = some v →
      buscar_tweets a.api = some [] →
      (mainLoop (pre ++ a :: rest)).1 = Outcome.noTweets ∧
      Event.infoNoTweets ∈ (mainLoop (pre ++ a :: rest)).2 ∧
      (∀ e ∈ (mainLoop (pre ++ a :: rest)).2, isStorageEvent e = false)) ∧
    (∀ (pre : List Attempt) (a : Attempt) (rest : List Attempt) (v : String)
        (df : List CanonicalRecord),
      (∀ b ∈ pre, unusable b) →
      (cargar_token a.env a.file).1 = some v →
      buscar_tweets a.api = some df → df ≠ [] →
      df_nuevo df (obtener_ids_existentes a.read).1 = [] →
      (mainLoop (pre ++ a :: rest)).1 = Outcome.nothingNew ∧
      Event.infoAllExist ∈ (mainLoop (pre ++ a :: rest)).2 ∧
      (∀ e ∈ (mainLoop (pre ++ a :: rest)).2, isWriteEvent e = false)) := by
  constructor
  · intro pre a rest v hpre hv hb
    obtain ⟨ws, hws, hmem⟩ := mainLoop_append_skip pre (a :: rest) hpre
    have hmain : mainLoop (a :: rest) = (Outcome.noTweets, [Event.infoNoTweets]) := by
      simp [mainLoop, attemptStep_noTweets a v hv hb]
    rw [hws, hmain]
    refine ⟨rfl, by simp, ?_⟩
    intro e he
    rcases List.mem_append.mp he with hw | he2
    · rcases hmem e hw with rfl | rfl <;> rfl
    · rw [List.mem_singleton.mp he2]
      rfl
  · intro pre a rest v df hpre hv hb hne hfil
    obtain ⟨ws, hws, hmem⟩ := mainLoop_append_skip pre (a :: rest) hpre
    have hmain : mainLoop (a :: rest)
        = (Outcome.nothingNew, readEvents a ++ [Event.infoAllExist]) := by
      simp [mainLoop, attemptStep_nothingNew a v df hv hb hne hfil]
    rw [hws, hmain]
    refine ⟨rfl, by simp, ?_⟩
    intro e he
    rcases List.mem_append.mp he with hw | he2
    · rcases hmem e hw with rfl | rfl <;> rfl
    · rcases List.mem_append.mp he2 with hr | hlast
      · exact readEvents_no_write a e hr
      · rw [List.mem_singleton.mp hlast]
        rfl

/-- A working token whose search window holds no tweets. -/
def attemptBusquedaVacia : Attempt :=
  { env := some "tokC", file := .missing, api := .ok { pages := [], users := [] }
    read := .ok [], writeOk := true }

/-- A working token whose only tweet is already stored (its Id "1" is in
the existing-id read). -/
def attemptTodoExiste : Attempt :=
  { env := some "tokD", file := .missing, api := .ok apiUno
    read := .ok ["1"], writeOk := true }

/-- Witness for C9 on concrete runs: empty search reports "no tweets";
fully-filtered batch reports "nothing new". -/
theorem nada_nuevo_sin_escritura_witness :
    (mainLoop [attemptBusquedaVacia]).1 = Outcome.noTweets ∧
    (mainLoop [attemptTodoExiste]).1 = Outcome.nothingNew :=
  ⟨(nada_nuevo_sin_escritura.1 [] attemptBusquedaVacia [] "tokC"
      (by simp) (by decide) (by decide)).1,
   (nada_nuevo_sin_escritura.2 [] attemptTodoExiste [] "tokD" [recUno]
      (by simp) (by decide) (by decide) (by decide) (by decide)).1⟩

/-- Claim C8: when the existing-ID read fails, `obtener_ids_existentes`
returns the empty set instead of raising, the failure is logged (the
`errReadFailed` event), the filter removes nothing — the storage write
receives the full transformed batch — and, once the write is
acknowledged, the run reports the full batch as loaded. -/
theorem lectura_fallida_carga_todo (pre : List Attempt) (a : Attempt) (rest : List Attempt)
    (v : String) (df : List CanonicalRecord)
    (hpre : ∀ b ∈ pre, unusable b)
    (hv : (cargar_token a.env a.file).1 = some v)
    (hb : buscar_tweets a.api = some df) (hne : df ≠ [])
    (hread : obtener_ids_existentes a.read = ([], true)) :
    Event.errReadFailed ∈ (mainLoop (pre ++ a :: rest)).2 ∧
    Event.storageWrite df ∈ (mainLoop (pre ++ a :: rest)).2 ∧
    (a.writeOk = true → (mainLoop (pre ++ a :: rest)).1 = Outcome.loaded df.length) := by
  obtain ⟨ws, hws, hmem⟩ := mainLoop_append_skip pre (a :: rest) hpre
  have hfil : df_nuevo df (obtener_ids_existentes a.read).1 = df := by
    rw [hread]
    exact df_nuevo_nil df
  have hre : readEvents a = [Event.storageRead, Event.errReadFailed] := by
    simp [readEvents, hread]
  have hfne : df_nuevo df (obtener_ids_existentes a.read).1 ≠ [] := by
    rw [hfil]
    exact hne
  rcases Bool.eq_false_or_eq_true a.writeOk with hwk | hwk
  · have hstep := (attemptStep_escribe a v df hv hb hne hfne).1 hwk
    rw [hfil] at hstep
    have hmain : mainLoop (a :: rest)
        = (Outcome.loaded df.length,
           readEvents a ++ [Event.storageWrite df, Event.successReport df.length]) := by
      simp [mainLoop, hstep]
    refine ⟨?_, ?_, fun _ => ?_⟩
    · rw [hws, hmain, hre]
      simp
    · rw [hws, hmain, hre]
      simp
    · rw [hws, hmain]
  · have hstep := (attemptStep_escribe a v df hv hb hne hfne).2 hwk
    rw [hfil] at hstep
    have hmain : mainLoop (a :: rest)
        = ((mainLoop rest).1,
           (readEvents a ++ [Event.storageWrite df, Event.errWriteFailed])
             ++ (mainLoop rest).2) := by
      simp [mainLoop, hstep]
    refine ⟨?_, ?_, fun hw => ?_⟩
    · rw [hws, hmain, hre]
      simp
    · rw [hws, hmain, hre]
      simp
    · rw [hw] at hwk
      cases hwk

/-- A working token whose existing-ID read raises. -/
def attemptLecturaFalla : Attempt :=
  { env := some "tokE", file := .missing, api := .ok apiUno
    read := .error (), writeOk := true }

/-- Witness for C8 on a concrete run: read failure, whole batch written
and reported loaded. -/
theorem lectura_fallida_carga_todo_witness :
    Event.errReadFailed ∈ (mainLoop [attemptLecturaFalla]).2 ∧
    Event.storageWrite [recUno] ∈ (mainLoop [attemptLecturaFalla]).2 ∧
    (mainLoop [attemptLecturaFalla]).1 = Outcome.loaded 1 := by
  have h := lectura_fallida_carga_todo [] attemptLecturaFalla [] "tokE" [recUno]
    (by simp) (by decide) (by decide) (by decide) (by decide)
  exact ⟨h.1, h.2.1, h.2.2 (by decide)⟩

end XTwitter
